import Mathlib

/-!
Verification development for the BH_Smart_Sym addon (src/__init__.py).

The geometry layer (vectors, `make_solid_arrow`, the per-direction refresh in
`update_arrows`) is embedded over `ℝ`, modelling the host's float vectors.
Screen-space quantities (pixel coordinates, the 20 px hit-test tolerance, the
merge threshold passed to the mirror primitive) are embedded over `ℚ` so that
concrete runs of the interaction loop are decidable.  Host facilities
(`view3d_utils` projections, the symmetrize primitive, the window manager)
enter as explicit parameters of a context record.
-/

namespace BHSmartSym

/-- A 3D vector, modelling `mathutils.Vector` with three components. -/
structure Vec3 where
  x : ℝ
  y : ℝ
  z : ℝ

namespace Vec3

def add (a b : Vec3) : Vec3 := ⟨a.x + b.x, a.y + b.y, a.z + b.z⟩

def sub (a b : Vec3) : Vec3 := ⟨a.x - b.x, a.y - b.y, a.z - b.z⟩

def smul (r : ℝ) (v : Vec3) : Vec3 := ⟨r * v.x, r * v.y, r * v.z⟩

instance : Add Vec3 := ⟨add⟩

instance : Sub Vec3 := ⟨sub⟩

instance : SMul ℝ Vec3 := ⟨smul⟩

instance : Zero Vec3 := ⟨⟨0, 0, 0⟩⟩

/-- Dot product, modelling `Vector.dot`. -/
def dot (a b : Vec3) : ℝ := a.x * b.x + a.y * b.y + a.z * b.z

/-- Cross product, modelling `Vector.cross`. -/
def cross (a b : Vec3) : Vec3 :=
  ⟨a.y * b.z - a.z * b.y, a.z * b.x - a.x * b.z, a.x * b.y - a.y * b.x⟩

/-- Euclidean length, modelling `Vector.length`. -/
noncomputable def length (v : Vec3) : ℝ := Real.sqrt (v.x ^ 2 + v.y ^ 2 + v.z ^ 2)

/-- Normalization, modelling `Vector.normalized` / in-place `Vector.normalize`:
the vector scaled by the reciprocal of its length.  `mathutils` maps the zero
vector to the zero vector, which agrees with `1 / 0 = 0` here. -/
noncomputable def normalized (v : Vec3) : Vec3 := (1 / v.length) • v

end Vec3

/-- Model of `make_solid_arrow(base, direction, length)` from src/__init__.py:
the side-reference selection (the `side` variable just before the in-place
`normalize` call).  The cross of the normalized direction with world Y is
used, unless its length falls below `1e-6`, in which case world X is the
fallback. -/
noncomputable def sideRef (dir_n : Vec3) : Vec3 :=
  let side := dir_n.cross ⟨0, 1, 0⟩
  if side.length < 1e-6 then ⟨1, 0, 0⟩ else side

/-- Model of `make_solid_arrow(base, direction, length)` from
src/__init__.py: returns the polyline `points` and the `tip`. -/
noncomputable def make_solid_arrow (base direction : Vec3) (length : ℝ) :
    List Vec3 × Vec3 :=
  let dir_n := direction.normalized
  let tip := base + length • dir_n
  let shaft_mid := base + (length * 0.75) • dir_n
  let side := (sideRef dir_n).normalized
  let side2 := (dir_n.cross side).normalized
  let head_w := length * 0.12
  ([base, shaft_mid, tip,
    shaft_mid + head_w • side, tip,
    shaft_mid - head_w • side, tip,
    shaft_mid + head_w • side2, tip,
    shaft_mid - head_w • side2], tip)

/-- Model of the degeneracy guard in
`MESH_OT_smart_symmetrize_modal.update_arrows` (src/__init__.py lines
216–219): when the normalized direction is nearly parallel to the view ray
(absolute dot product above 0.96), a perpendicular tilt of magnitude 0.1 is
added and the sum is renormalized; otherwise the direction is returned as
it was. -/
noncomputable def adjustDir (view_dir dir_ws : Vec3) : Vec3 :=
  let dot_val := |Vec3.dot dir_ws.normalized view_dir|
  if dot_val > 0.96 then
    let tilt := (0.1 : ℝ) • (view_dir.cross dir_ws).normalized
    (dir_ws + tilt).normalized
  else dir_ws

/-! ### Interaction-loop data model -/

/-- 2D screen-space point (region pixel coordinates). -/
abbrev Point2 := ℚ × ℚ

/-- RGBA color tuple. -/
abbrev Color := ℚ × ℚ × ℚ × ℚ

/-- Axis tag for an arrow, one of X, Y, Z. -/
inductive Axis where
  | X
  | Y
  | Z
deriving DecidableEq

/-- The axis letter used in the direction token, as in `a['axis']`. -/
def axisStr : Axis → String
  | .X => "X"
  | .Y => "Y"
  | .Z => "Z"

/-- The base colors per axis from `update_arrows`:
`{'X': (1, 0.1, 0.1, 1), 'Y': (0.1, 1, 0.1, 1), 'Z': (0.1, 0.5, 1, 1)}`. -/
def baseColor : Axis → Color
  | .X => (1, 0.1, 0.1, 1)
  | .Y => (0.1, 1, 0.1, 1)
  | .Z => (0.1, 0.5, 1, 1)

/-- The darkened negative-sign variant:
`tuple(c * dark_mul for c in colors[axis_name][:3]) + (1,)` with
`dark_mul = 0.45`. -/
def darken (c : Color) : Color :=
  (c.1 * 0.45, c.2.1 * 0.45, c.2.2.1 * 0.45, 1)

/-- One entry of `self._arrows`: the dict
`{'axis': ..., 'sign': ..., 'points': ..., 'tip': ..., 'color': ...}`. -/
structure Arrow where
  axis : Axis
  sign : ℤ
  points : List Vec3
  tip : Vec3
  color : Color

/-- The active object (`context.object`): its type string, its world origin
(`matrix_world.translation`) and its three world-space basis axes
(`matrix_world.to_3x3() @ unit axis`). -/
structure Obj where
  objType : String
  origin : Vec3
  axisX : Vec3
  axisY : Vec3
  axisZ : Vec3

/-- The active area (`context.area`), reduced to its type string. -/
structure Area where
  areaType : String

/-- The host context consumed by the operator.  The two `view3d_utils`
projections, the preference `arrow_size`, the view forward vector
(`rv3d.view_rotation @ Vector((0, 0, -1))`) and whether the external
`bpy.ops.mesh.symmetrize` primitive raises are supplied by the host and
modelled as explicit fields. -/
structure Ctx where
  obj : Option Obj
  mode : String
  area : Option Area
  arrowPx : ℚ
  viewForward : Vec3
  loc3dTo2d : Vec3 → Option Point2
  loc2dTo3d : Point2 → Vec3 → Vec3
  symRaises : Bool

/-- The per-session mutable state of `MESH_OT_smart_symmetrize_modal`:
`_arrows`, `_hover`, and whether the timer and the draw handler are
currently acquired (set non-None and registered with the host). -/
structure SessionState where
  arrows : List Arrow
  hover : Option ℕ
  timerRef : Bool
  handleRef : Bool

/-- One invocation of the external mirror primitive
`bpy.ops.mesh.symmetrize(direction=..., threshold=...)`. -/
structure MirrorCall where
  direction : String
  threshold : ℚ
deriving DecidableEq

/-- Host-visible effects of one `modal` step: the mirror-primitive
invocations, and how many times the timer and the draw handler were
released (`wm.event_timer_remove` / `draw_handler_remove`). -/
structure StepEff where
  symCalls : List MirrorCall := []
  timerRemovals : ℕ := 0
  handleRemovals : ℕ := 0
deriving DecidableEq

/-- A Python-level failure propagating out of `modal`. -/
inductive PyErr where
  | symmetrizeError
  | indexError
deriving DecidableEq

/-- The value returned by `modal` / `invoke`, or a propagated failure. -/
inductive ModalOutcome where
  | runningModal
  | passThrough
  | cancelled
  | finished
  | raised (e : PyErr)
deriving DecidableEq

/-- The events dispatched to `modal`, abstracting `event.type`,
`event.value`, `event.alt` and the region-space mouse coordinates.
`navPass` stands for the pass-through navigation types (MIDDLEMOUSE and the
wheel events); `cancelIn` stands for RIGHTMOUSE or ESC; `otherEv` is any
other event type. -/
inductive Event where
  | timer
  | navPass
  | mouseMove (alt : Bool) (mx my : ℚ)
  | cancelIn
  | leftMouse (val : String)
  | otherEv

/-- The direction token built in the commit branch:
`("POSITIVE" if a['sign'] > 0 else "NEGATIVE") + "_" + a['axis']`. -/
def directionToken (sign : ℤ) (ax : Axis) : String :=
  (if sign > 0 then "POSITIVE" else "NEGATIVE") ++ "_" ++ axisStr ax

/-- The per-arrow test of the MOUSEMOVE branch: project `a['tip']`; a hit
iff the projection exists and the squared pixel distance to the pointer is
at most `tol ** 2` with `tol = 20`. -/
def arrowHitAt (ctx : Ctx) (mx my : ℚ) (a : Arrow) : Bool :=
  match ctx.loc3dTo2d a.tip with
  | some t => decide ((mx - t.1) ^ 2 + (my - t.2) ^ 2 ≤ (20 : ℚ) ^ 2)
  | none => false

/-- The enumeration loop of the MOUSEMOVE branch from index `k` on: the
first arrow that hits sets the hover index and the loop breaks. -/
def hitTestAux (ctx : Ctx) (mx my : ℚ) : ℕ → List Arrow → Option ℕ
  | _, [] => none
  | k, a :: rest =>
      if arrowHitAt ctx mx my a then some k else hitTestAux ctx mx my (k + 1) rest

/-- The full hit test of the MOUSEMOVE branch: `self._hover = None`, then
scan `enumerate(self._arrows)` for the first hit. -/
def hitTest (ctx : Ctx) (mx my : ℚ) (arrows : List Arrow) : Option ℕ :=
  hitTestAux ctx mx my 0 arrows

/-- One direction of the refresh loop body in `update_arrows`: color
selection, sign application, degeneracy guard, origin projection (skipping
the direction when the origin does not project), pixel-to-world length
computation, and the `make_solid_arrow` call. -/
noncomputable def dirArrow (ctx : Ctx) (o : Obj) (view_dir : Vec3) (ax : Axis)
    (vec : Vec3) (sign : ℤ) : List Arrow :=
  let color := if sign > 0 then baseColor ax else darken (baseColor ax)
  let dir_ws := (sign : ℝ) • vec
  let dir_ws2 := adjustDir view_dir dir_ws
  match ctx.loc3dTo2d o.origin with
  | none => []
  | some p_origin_2d =>
      let offset_2d : Point2 := (p_origin_2d.1 + ctx.arrowPx, p_origin_2d.2)
      let p_tip_ws := ctx.loc2dTo3d offset_2d o.origin
      let len := (p_tip_ws - o.origin).length
      let pt := make_solid_arrow o.origin dir_ws2 len
      [{ axis := ax, sign := sign, points := pt.1, tip := pt.2, color := color }]

/-- The arrow list rebuilt by `update_arrows` for an active object: the
cleared `self._arrows` repopulated over the axes dict `{X, Y, Z}` (insertion
order) and signs `(1, -1)`. -/
noncomputable def refreshForObj (ctx : Ctx) (o : Obj) : List Arrow :=
  let view_dir := ctx.viewForward.normalized
  dirArrow ctx o view_dir .X o.axisX 1 ++ dirArrow ctx o view_dir .X o.axisX (-1) ++
  dirArrow ctx o view_dir .Y o.axisY 1 ++ dirArrow ctx o view_dir .Y o.axisY (-1) ++
  dirArrow ctx o view_dir .Z o.axisZ 1 ++ dirArrow ctx o view_dir .Z o.axisZ (-1)

/-- Model of `update_arrows(self, context)`: early return leaving the state
untouched when there is no active object, otherwise wholesale replacement
of `self._arrows`. -/
noncomputable def updateArrowsState (ctx : Ctx) (st : SessionState) : SessionState :=
  match ctx.obj with
  | none => st
  | some o => { st with arrows := refreshForObj ctx o }

/-- Model of `finish(self, context)`: remove the timer if `self._timer` is
set, remove the draw handler if `self._handle` is set, and request a
redraw.  Returns the new state and the removal counts. -/
def finishFn (st : SessionState) : SessionState × StepEff :=
  ({ st with timerRef := false, handleRef := false },
   { timerRemovals := if st.timerRef then 1 else 0,
     handleRemovals := if st.handleRef then 1 else 0 })

/-- Model of `modal(self, context, event)` (src/__init__.py lines 229–263),
one event step: returns the outcome, the new session state and the
host-visible effects.  The sequential `if event.type == ...` chain of the
source branches on disjoint event types, so it is rendered as one match. -/
noncomputable def modalStep (ctx : Ctx) (st : SessionState) (ev : Event) :
    ModalOutcome × SessionState × StepEff :=
  match ev with
  | .timer => (.runningModal, updateArrowsState ctx st, {})
  | .navPass => (.passThrough, st, {})
  | .mouseMove alt mx my =>
      if alt then (.passThrough, st, {})
      else (.runningModal, { st with hover := hitTest ctx mx my st.arrows }, {})
  | .cancelIn =>
      let fin := finishFn st
      (.cancelled, fin.1, fin.2)
  | .leftMouse val =>
      if val = "PRESS" then
        match st.hover with
        | some i =>
            match st.arrows.get? i with
            | some a =>
                let call : MirrorCall :=
                  { direction := directionToken a.sign a.axis, threshold := 0.0001 }
                if ctx.symRaises then
                  (.raised .symmetrizeError, st, { symCalls := [call] })
                else
                  let fin := finishFn st
                  (.finished, fin.1, { fin.2 with symCalls := [call] })
            | none => (.raised .indexError, st, {})
        | none => (.runningModal, st, {})
      else (.runningModal, st, {})
  | .otherEv => (.runningModal, st, {})

/-- The outcome of `invoke(self, context, event)`: result value, warning
report, which resources were created, whether a modal handler was added,
and the class-attribute state after the call. -/
structure InvokeResult where
  outcome : ModalOutcome
  warned : Option String
  timerCreated : Bool
  handleCreated : Bool
  modalAdded : Bool
  endState : SessionState

/-- Model of `invoke(self, context, event)` (src/__init__.py lines
265–282).  The precondition on the object and the mode is checked first;
then the arrows are computed and the timer is added; only then is the area
type checked.  A missing `context.area` (whose attribute access would fail
in the source) is modelled as the non-VIEW_3D branch. -/
noncomputable def invokeOp (ctx : Ctx) (st : SessionState) : InvokeResult :=
  let objBad :=
    match ctx.obj with
    | none => true
    | some o => decide (o.objType ≠ "MESH")
  if objBad || decide (ctx.mode ≠ "EDIT_MESH") then
    { outcome := .cancelled, warned := some "Edit Mode mesh required",
      timerCreated := false, handleCreated := false, modalAdded := false,
      endState := st }
  else
    let st1 := updateArrowsState ctx st
    let st2 := { st1 with timerRef := true }
    if ctx.area.map Area.areaType = some "VIEW_3D" then
      { outcome := .runningModal, warned := none,
        timerCreated := true, handleCreated := true, modalAdded := true,
        endState := { st2 with handleRef := true } }
    else
      { outcome := .cancelled, warned := some "View3D area required",
        timerCreated := true, handleCreated := false, modalAdded := false,
        endState := st2 }

/-- Model of `draw_callback(self, context)`: the polylines and colors
handed to the line-strip draw, the hovered arrow highlighted in yellow. -/
def drawCallbackData (st : SessionState) : List (List Vec3 × Color) :=
  st.arrows.enum.map fun p =>
    (p.2.points, if st.hover = some p.1 then ((1, 1, 0, 1) : Color) else p.2.color)

/-! ### Concrete fixtures: a mesh object at the world origin with identity
rotation, and host contexts differing in projection behaviour, area type
and symmetrize outcome. -/

/-- A mesh object at the world origin with identity basis. -/
def objW : Obj :=
  { objType := "MESH", origin := ⟨0, 0, 0⟩,
    axisX := ⟨1, 0, 0⟩, axisY := ⟨0, 1, 0⟩, axisZ := ⟨0, 0, 1⟩ }

/-- A context whose viewport projects every world point to pixel
(100, 100): the origin is visible on screen. -/
def ctxVisible : Ctx :=
  { obj := some objW, mode := "EDIT_MESH", area := some ⟨"VIEW_3D"⟩,
    arrowPx := 80, viewForward := ⟨0, 0, -1⟩,
    loc3dTo2d := fun _ => some (100, 100), loc2dTo3d := fun _ v => v,
    symRaises := false }

/-- A context whose viewport projection fails for every world point: the
origin is off screen (e.g. behind the view). -/
def ctxOffscreen : Ctx :=
  { obj := some objW, mode := "EDIT_MESH", area := some ⟨"VIEW_3D"⟩,
    arrowPx := 80, viewForward := ⟨0, 0, -1⟩,
    loc3dTo2d := fun _ => none, loc2dTo3d := fun _ v => v,
    symRaises := false }

/-- A context in which the external `bpy.ops.mesh.symmetrize` primitive
raises. -/
def ctxRaising : Ctx :=
  { obj := some objW, mode := "EDIT_MESH", area := some ⟨"VIEW_3D"⟩,
    arrowPx := 80, viewForward := ⟨0, 0, -1⟩,
    loc3dTo2d := fun _ => some (100, 100), loc2dTo3d := fun _ v => v,
    symRaises := true }

/-- A context satisfying the object/mode precondition but whose active area
is not a 3D viewport. -/
def ctxBadArea : Ctx :=
  { obj := some objW, mode := "EDIT_MESH", area := some ⟨"PROPERTIES"⟩,
    arrowPx := 80, viewForward := ⟨0, 0, -1⟩,
    loc3dTo2d := fun _ => none, loc2dTo3d := fun _ v => v,
    symRaises := false }

/-- A context with no active object. -/
def ctxNoObj : Ctx :=
  { obj := none, mode := "EDIT_MESH", area := some ⟨"VIEW_3D"⟩,
    arrowPx := 80, viewForward := ⟨0, 0, -1⟩,
    loc3dTo2d := fun _ => some (100, 100), loc2dTo3d := fun _ v => v,
    symRaises := false }

/-- A concrete X+ arrow as built by the geometry layer. -/
noncomputable def arrowX : Arrow :=
  { axis := .X, sign := 1,
    points := (make_solid_arrow ⟨0, 0, 0⟩ ⟨1, 0, 0⟩ 1).1,
    tip := (make_solid_arrow ⟨0, 0, 0⟩ ⟨1, 0, 0⟩ 1).2,
    color := baseColor .X }

/-- A session state with the X+ arrow hovered and both resources held. -/
noncomputable def stHover : SessionState :=
  { arrows := [arrowX], hover := some 0, timerRef := true, handleRef := true }

/-- A session state with no hover and both resources held. -/
noncomputable def stNoHover : SessionState :=
  { arrows := [arrowX], hover := none, timerRef := true, handleRef := true }

/-- A freshly refreshed session state in the visible context (six arrows),
both resources held. -/
noncomputable def stFresh : SessionState :=
  { arrows := refreshForObj ctxVisible objW, hover := none,
    timerRef := true, handleRef := true }

/-! ### Basic vector lemmas -/

namespace Vec3

@[simp] theorem add_mk (a b c d e f : ℝ) :
    (Vec3.mk a b c + Vec3.mk d e f) = Vec3.mk (a + d) (b + e) (c + f) := rfl

@[simp] theorem sub_mk (a b c d e f : ℝ) :
    (Vec3.mk a b c - Vec3.mk d e f) = Vec3.mk (a - d) (b - e) (c - f) := rfl

@[simp] theorem smul_mk (r a b c : ℝ) :
    (r • Vec3.mk a b c) = Vec3.mk (r * a) (r * b) (r * c) := rfl

@[simp] theorem dot_mk (a b c d e f : ℝ) :
    dot (Vec3.mk a b c) (Vec3.mk d e f) = a * d + b * e + c * f := rfl

@[simp] theorem cross_mk (a b c d e f : ℝ) :
    cross (Vec3.mk a b c) (Vec3.mk d e f) =
      Vec3.mk (b * f - c * e) (c * d - a * f) (a * e - b * d) := rfl

@[simp] theorem length_mk (a b c : ℝ) :
    length (Vec3.mk a b c) = Real.sqrt (a ^ 2 + b ^ 2 + c ^ 2) := rfl

/-- A vector whose squared norm is 1 has length 1 and is fixed by
normalization. -/
theorem normalized_of_sq_one (v : Vec3) (h : v.x ^ 2 + v.y ^ 2 + v.z ^ 2 = 1) :
    v.normalized = v := by
  cases v with
  | mk a b c =>
    simp only [normalized, length_mk] at *
    rw [h, Real.sqrt_one]
    simp

@[simp] theorem normalized_zero : (Vec3.mk 0 0 0).normalized = Vec3.mk 0 0 0 := by
  simp [normalized]

end Vec3

/-! ### Hit-test characterization -/

theorem hitTestAux_shift (ctx : Ctx) (mx my : ℚ) :
    ∀ (l : List Arrow) (k : ℕ),
      hitTestAux ctx mx my k l = (hitTestAux ctx mx my 0 l).map (· + k) := by
  intro l
  induction l with
  | nil => intro k; rfl
  | cons a rest ih =>
      intro k
      by_cases h : arrowHitAt ctx mx my a = true
      · simp [hitTestAux, h]
      · simp only [hitTestAux, h, if_false, Bool.false_eq_true, ite_false]
        rw [ih (k + 1), ih 1, Option.map_map]
        congr 1
        funext n
        simp
        omega

theorem hitTest_cons (ctx : Ctx) (mx my : ℚ) (a : Arrow) (rest : List Arrow) :
    hitTest ctx mx my (a :: rest) =
      if arrowHitAt ctx mx my a then some 0
      else (hitTest ctx mx my rest).map (· + 1) := by
  by_cases h : arrowHitAt ctx mx my a = true
  · simp [hitTest, hitTestAux, h]
  · simp only [hitTest, hitTestAux, h, Bool.false_eq_true, ite_false]
    exact hitTestAux_shift ctx mx my rest 1

theorem hitTest_none_iff (ctx : Ctx) (mx my : ℚ) :
    ∀ (l : List Arrow),
      hitTest ctx mx my l = none ↔ ∀ a ∈ l, arrowHitAt ctx mx my a = false := by
  intro l
  induction l with
  | nil => simp [hitTest, hitTestAux]
  | cons a rest ih =>
      rw [hitTest_cons]
      by_cases h : arrowHitAt ctx mx my a = true
      · simp [h]
      · simp only [h, Bool.false_eq_true, ite_false, Option.map_eq_none']
        simp only [Bool.not_eq_true] at h
        simp [ih, h]

theorem hitTest_some_iff (ctx : Ctx) (mx my : ℚ) :
    ∀ (l : List Arrow) (i : ℕ),
      hitTest ctx mx my l = some i ↔
        (∃ a, l.get? i = some a ∧ arrowHitAt ctx mx my a = true) ∧
        (∀ j b, j < i → l.get? j = some b → arrowHitAt ctx mx my b = false) := by
  intro l
  induction l with
  | nil => intro i; simp [hitTest, hitTestAux]
  | cons a rest ih =>
      intro i
      rw [hitTest_cons]
      by_cases h : arrowHitAt ctx mx my a = true
      · simp only [h, ite_true]
        constructor
        · intro hi
          injection hi with hi
          subst hi
          exact ⟨⟨a, rfl, h⟩, fun j b hj => absurd hj (Nat.not_lt_zero j)⟩
        · rintro ⟨⟨b, hb, hbhit⟩, hmin⟩
          cases i with
          | zero => rfl
          | succ i' =>
              have := hmin 0 a (Nat.succ_pos i') rfl
              rw [h] at this
              exact absurd this (by simp)
      · simp only [h, Bool.false_eq_true, ite_false, Option.map_eq_some']
        have hfalse : arrowHitAt ctx mx my a = false := by
          simpa using h
        constructor
        · rintro ⟨i', hi', rfl⟩
          rcases (ih i').mp hi' with ⟨⟨b, hb, hbhit⟩, hmin⟩
          refine ⟨⟨b, by simpa using hb, hbhit⟩, ?_⟩
          intro j c hj hc
          cases j with
          | zero =>
              injection hc with hc
              subst hc
              exact hfalse
          | succ j' =>
              exact hmin j' c (by omega) (by simpa using hc)
        · rintro ⟨⟨b, hb, hbhit⟩, hmin⟩
          cases i with
          | zero =>
              injection hb with hb
              subst hb
              rw [hfalse] at hbhit
              exact absurd hbhit (by simp)
          | succ i' =>
              refine ⟨i', ?_, rfl⟩
              refine (ih i').mpr ⟨⟨b, by simpa using hb, hbhit⟩, ?_⟩
              intro j c hj hc
              exact hmin (j + 1) c (by omega) (by simpa using hc)

/-- The refresh emits one arrow per direction when the origin projects and
none otherwise, so its output has six entries or zero. -/
theorem refreshForObj_length (ctx : Ctx) (o : Obj) :
    (refreshForObj ctx o).length =
      if (ctx.loc3dTo2d o.origin).isSome then 6 else 0 := by
  cases hproj : ctx.loc3dTo2d o.origin with
  | none => simp [refreshForObj, dirArrow, hproj]
  | some p => simp [refreshForObj, dirArrow, hproj]

/-- In the visible fixture every tip projects to pixel (100, 100), so the
per-arrow hit test reduces to the squared-distance comparison against that
pixel. -/
theorem arrowHitAt_ctxVisible (mx my : ℚ) (a : Arrow) :
    arrowHitAt ctxVisible mx my a =
      decide ((mx - 100) ^ 2 + (my - 100) ^ 2 ≤ (20 : ℚ) ^ 2) := rfl

/-- A primary-click press on a state whose stale hover points at index 0 of
an empty arrow list reaches the out-of-bounds indexing of the commit
branch. -/
theorem modalStep_press_stale (c : Ctx) (st : SessionState)
    (hh : st.hover = some 0) (ha : st.arrows = []) :
    (modalStep c st (.leftMouse "PRESS")).1 = .raised .indexError := by
  simp [modalStep, hh, ha]

/-! ### Claim theorems -/

/-- Claim C8: for every base point, direction, and length, `make_solid_arrow`
returns `tip = base + normalized(direction) * length`; the `points` polyline
has ten entries and starts at `base`; the arrowhead begins at
`shaft_mid = base + normalized(direction) * (0.75 * length)`; the four wing
points sit at `shaft_mid` offset by plus/minus the head half-width
`0.12 * length` along the two side vectors; and each of the four wing
strokes of the strip has `tip` as an endpoint (positions 2, 4, 6 and 8 of
the polyline all equal `tip`). -/
theorem c8_make_solid_arrow_shape (base direction : Vec3) (len : ℝ) :
    (make_solid_arrow base direction len).2 =
      base + len • direction.normalized ∧
    (make_solid_arrow base direction len).1.length = 10 ∧
    (make_solid_arrow base direction len).1.head? = some base ∧
    (make_solid_arrow base direction len).1.get? 1 =
      some (base + (len * 0.75) • direction.normalized) ∧
    (make_solid_arrow base direction len).1.get? 2 =
      some (base + len • direction.normalized) ∧
    (make_solid_arrow base direction len).1.get? 4 =
      some (base + len • direction.normalized) ∧
    (make_solid_arrow base direction len).1.get? 6 =
      some (base + len • direction.normalized) ∧
    (make_solid_arrow base direction len).1.get? 8 =
      some (base + len • direction.normalized) ∧
    (make_solid_arrow base direction len).1.get? 3 =
      some (base + (len * 0.75) • direction.normalized +
        (len * 0.12) • (sideRef direction.normalized).normalized) ∧
    (make_solid_arrow base direction len).1.get? 5 =
      some (base + (len * 0.75) • direction.normalized -
        (len * 0.12) • (sideRef direction.normalized).normalized) ∧
    (make_solid_arrow base direction len).1.get? 7 =
      some (base + (len * 0.75) • direction.normalized +
        (len * 0.12) •
          (direction.normalized.cross
            (sideRef direction.normalized).normalized).normalized) ∧
    (make_solid_arrow base direction len).1.get? 9 =
      some (base + (len * 0.75) • direction.normalized -
        (len * 0.12) •
          (direction.normalized.cross
            (sideRef direction.normalized).normalized).normalized) :=
  ⟨rfl, rfl, rfl, rfl, rfl, rfl, rfl, rfl, rfl, rfl, rfl, rfl⟩

/-- Claim C9: the side-vector computation of `make_solid_arrow` never
normalizes a near-zero vector: whenever the cross product of the normalized
direction with world Y has length below `1e-6`, the fallback world X is
selected, and in every case the selected side vector has strictly positive
length. -/
theorem c9_side_fallback_nonzero (direction : Vec3) :
    ((direction.normalized.cross ⟨0, 1, 0⟩).length < 1e-6 →
        sideRef direction.normalized = ⟨1, 0, 0⟩) ∧
    0 < (sideRef direction.normalized).length := by
  constructor
  · intro h
    simp only [sideRef, if_pos h]
  · by_cases h : (direction.normalized.cross ⟨0, 1, 0⟩).length < 1e-6
    · simp only [sideRef, if_pos h, Vec3.length_mk]
      rw [show ((1 : ℝ) ^ 2 + 0 ^ 2 + 0 ^ 2) = 1 by norm_num, Real.sqrt_one]
      norm_num
    · simp only [sideRef, if_neg h]
      push_neg at h
      calc (0 : ℝ) < 1e-6 := by norm_num
        _ ≤ _ := h

/-- Witness for C9 at the direction `(0, 1, 0)` named by the claim: the
cross with world Y degenerates, the fallback world X is selected, and the
side vector is nonzero. -/
theorem c9_side_fallback_nonzero_witness :
    ((Vec3.mk 0 1 0).normalized.cross ⟨0, 1, 0⟩).length < 1e-6 ∧
    sideRef (Vec3.mk 0 1 0).normalized = ⟨1, 0, 0⟩ ∧
    0 < (sideRef (Vec3.mk 0 1 0).normalized).length := by
  have hn : (Vec3.mk (0 : ℝ) 1 0).normalized = Vec3.mk 0 1 0 :=
    Vec3.normalized_of_sq_one _ (by norm_num)
  have hsmall : ((Vec3.mk 0 1 0).normalized.cross ⟨0, 1, 0⟩).length < 1e-6 := by
    rw [hn]
    simp only [Vec3.cross_mk, Vec3.length_mk]
    rw [show ((1 : ℝ) * 0 - 0 * 1) ^ 2 + (0 * 0 - 0 * 0) ^ 2 +
        (0 * 1 - 1 * 0) ^ 2 = 0 by norm_num, Real.sqrt_zero]
    norm_num
  exact ⟨hsmall, (c9_side_fallback_nonzero ⟨0, 1, 0⟩).1 hsmall,
    (c9_side_fallback_nonzero ⟨0, 1, 0⟩).2⟩

/-- Claim C10: invoking the arrow refresh with no active object returns
early without modifying any session state: the previous arrow list stays in
place, the timer step leaves the state untouched, and the unchanged arrows
continue to be drawn and hit-tested. -/
theorem c10_refresh_no_object_keeps_state (ctx : Ctx) (st : SessionState)
    (h : ctx.obj = none) :
    updateArrowsState ctx st = st ∧
    modalStep ctx st .timer = (.runningModal, st, {}) ∧
    drawCallbackData (updateArrowsState ctx st) = drawCallbackData st ∧
    ∀ mx my, hitTest ctx mx my (updateArrowsState ctx st).arrows =
      hitTest ctx mx my st.arrows := by
  have h1 : updateArrowsState ctx st = st := by
    unfold updateArrowsState
    rw [h]
  refine ⟨h1, ?_, by rw [h1], fun mx my => by rw [h1]⟩
  show ((ModalOutcome.runningModal, updateArrowsState ctx st,
      ({} : StepEff)) : ModalOutcome × SessionState × StepEff) = _
  rw [h1]

/-- Witness for C10: in the concrete no-object context, a timer tick leaves
a session state with one stale arrow unchanged. -/
theorem c10_refresh_no_object_keeps_state_witness :
    updateArrowsState ctxNoObj stHover = stHover ∧
    modalStep ctxNoObj stHover .timer = (.runningModal, stHover, {}) :=
  ⟨(c10_refresh_no_object_keeps_state ctxNoObj stHover rfl).1,
   (c10_refresh_no_object_keeps_state ctxNoObj stHover rfl).2.1⟩

/-- Counterexample to claim C4: in a context where the object's origin does
not project onto the visible screen region, a refresh produces an arrow
list of length 0, not 6. -/
theorem c4_refresh_count_counterexample :
    (updateArrowsState ctxOffscreen
        { arrows := [], hover := none, timerRef := true, handleRef := true }
      ).arrows.length ≠ 6 := by
  have h : (updateArrowsState ctxOffscreen
      { arrows := [], hover := none, timerRef := true, handleRef := true }
    ).arrows = [] := rfl
  rw [h]
  decide

/-- Claim C4 as amended: a refresh with an active object produces exactly 6
ArrowSpecs (3 axes times 2 signs) when the object's origin projects onto
the screen region, and 0 ArrowSpecs (every direction skipped) when it does
not. -/
theorem c4_refresh_count_amended (ctx : Ctx) (st : SessionState) (o : Obj)
    (h : ctx.obj = some o) :
    (updateArrowsState ctx st).arrows.length =
      if (ctx.loc3dTo2d o.origin).isSome then 6 else 0 := by
  unfold updateArrowsState
  rw [h]
  cases hproj : ctx.loc3dTo2d o.origin with
  | none => simp [refreshForObj, dirArrow, hproj]
  | some p => simp [refreshForObj, dirArrow, hproj]

/-- Witness for the amended C4: with the origin projecting to a visible
pixel, the refresh produces exactly 6 arrows. -/
theorem c4_refresh_count_amended_witness :
    (updateArrowsState ctxVisible
        { arrows := [], hover := none, timerRef := true, handleRef := true }
      ).arrows.length = 6 := by
  have h := c4_refresh_count_amended ctxVisible
    { arrows := [], hover := none, timerRef := true, handleRef := true } objW rfl
  simpa using h

/-- Claim C2 fails on the code for the viewport precondition: invoking with
a valid mesh object in edit mode but an active area that is not a 3D
viewport reports the warning and returns CANCELLED, yet the periodic timer
has already been created (and is never removed), contradicting the claim
that no resources are acquired.  (For the object/mode preconditions the
claim's behaviour does hold: no resources are created there.) -/
theorem c2_viewport_failure_leaks_timer :
    (invokeOp ctxBadArea
        { arrows := [], hover := none, timerRef := false, handleRef := false }
      ).outcome = .cancelled ∧
    (invokeOp ctxBadArea
        { arrows := [], hover := none, timerRef := false, handleRef := false }
      ).warned = some "View3D area required" ∧
    (invokeOp ctxBadArea
        { arrows := [], hover := none, timerRef := false, handleRef := false }
      ).timerCreated = true ∧
    (invokeOp ctxBadArea
        { arrows := [], hover := none, timerRef := false, handleRef := false }
      ).endState.timerRef = true ∧
    (invokeOp ctxBadArea
        { arrows := [], hover := none, timerRef := false, handleRef := false }
      ).handleCreated = false ∧
    (invokeOp ctxBadArea
        { arrows := [], hover := none, timerRef := false, handleRef := false }
      ).modalAdded = false ∧
    (invokeOp ctxNoObj
        { arrows := [], hover := none, timerRef := false, handleRef := false }
      ).timerCreated = false :=
  ⟨rfl, rfl, rfl, rfl, rfl, rfl, rfl⟩

/-- Claim C1 fails on the code when the mirror primitive raises: on a
primary-click commit with a hovered arrow, the symmetrize invocation
happens before `finish`, so a raising primitive propagates the failure and
neither the timer nor the draw subscription is released — both remain
held, with zero removal effects.  (The cancel path, by contrast, does
release both exactly once.) -/
theorem c1_commit_raise_leaks_resources :
    (modalStep ctxRaising stHover (.leftMouse "PRESS")).1 =
      .raised .symmetrizeError ∧
    (modalStep ctxRaising stHover (.leftMouse "PRESS")).2.1.timerRef = true ∧
    (modalStep ctxRaising stHover (.leftMouse "PRESS")).2.1.handleRef = true ∧
    (modalStep ctxRaising stHover (.leftMouse "PRESS")).2.2.timerRemovals = 0 ∧
    (modalStep ctxRaising stHover (.leftMouse "PRESS")).2.2.handleRemovals = 0 ∧
    (modalStep ctxRaising stHover (.leftMouse "PRESS")).2.2.symCalls =
      [{ direction := "POSITIVE_X", threshold := 0.0001 }] ∧
    (modalStep ctxRaising stHover .cancelIn).2.2.timerRemovals = 1 ∧
    (modalStep ctxRaising stHover .cancelIn).2.2.handleRemovals = 1 ∧
    (modalStep ctxRaising stHover .cancelIn).2.1.timerRef = false ∧
    (modalStep ctxRaising stHover .cancelIn).2.1.handleRef = false :=
  ⟨rfl, rfl, rfl, rfl, rfl, rfl, rfl, rfl, rfl, rfl⟩

/-- Claim C3 fails on the code: a pointer move over the X+ tip sets
`hover = some 0` with six arrows present; a timer tick whose refresh finds
the origin off screen replaces the arrow list by the empty list while
leaving the stale hover in place; the next primary-click press then indexes
`self._arrows[self._hover]` out of bounds (an IndexError in the source). -/
theorem c3_stale_hover_crashes_commit :
    (modalStep ctxVisible stFresh (.mouseMove false 100 100)).2.1.hover =
      some 0 ∧
    (modalStep ctxVisible stFresh (.mouseMove false 100 100)).2.1.arrows.length
      = 6 ∧
    (modalStep ctxOffscreen
        (modalStep ctxVisible stFresh (.mouseMove false 100 100)).2.1
        .timer).2.1.arrows = [] ∧
    (modalStep ctxOffscreen
        (modalStep ctxVisible stFresh (.mouseMove false 100 100)).2.1
        .timer).2.1.hover = some 0 ∧
    (modalStep ctxOffscreen
        (modalStep ctxOffscreen
          (modalStep ctxVisible stFresh (.mouseMove false 100 100)).2.1
          .timer).2.1
        (.leftMouse "PRESS")).1 = .raised .indexError := by
  have hhit : ∀ a : Arrow, arrowHitAt ctxVisible 100 100 a = true := by
    intro a
    rw [arrowHitAt_ctxVisible]
    simp only [decide_eq_true_eq]
    norm_num
  have hlen : (refreshForObj ctxVisible objW).length = 6 := by
    simpa using refreshForObj_length ctxVisible objW
  have hne : refreshForObj ctxVisible objW ≠ [] := by
    intro h
    rw [h] at hlen
    simp at hlen
  obtain ⟨a, rest, hcons⟩ := List.exists_cons_of_ne_nil hne
  have hht : hitTest ctxVisible 100 100 (refreshForObj ctxVisible objW) =
      some 0 := by
    rw [hcons, hitTest_cons]
    simp [hhit a]
  have h1 : (modalStep ctxVisible stFresh (.mouseMove false 100 100)).2.1.hover
      = hitTest ctxVisible 100 100 (refreshForObj ctxVisible objW) := rfl
  have hhov1 : (modalStep ctxVisible stFresh
      (.mouseMove false 100 100)).2.1.hover = some 0 := h1.trans hht
  have h2 : (modalStep ctxVisible stFresh (.mouseMove false 100 100)).2.1.arrows
      = refreshForObj ctxVisible objW := rfl
  have h3 : (modalStep ctxOffscreen
      (modalStep ctxVisible stFresh (.mouseMove false 100 100)).2.1
      .timer).2.1.arrows = [] := rfl
  have h4 : (modalStep ctxOffscreen
      (modalStep ctxVisible stFresh (.mouseMove false 100 100)).2.1
      .timer).2.1.hover =
      (modalStep ctxVisible stFresh (.mouseMove false 100 100)).2.1.hover := rfl
  refine ⟨hhov1, by rw [h2]; exact hlen, h3, h4.trans hhov1, ?_⟩
  exact modalStep_press_stale _ _ (h4.trans hhov1) h3

/-- Claim C5: a pointer-move event that is not passed through performs the
hit test: the step stores exactly the first-match scan over the arrow list;
the scan returns the first index whose projected tip lies within 20 px of
the pointer (squared-distance comparison, boundary inclusive) and none when
no tip is within that radius; and a refresh whose origin projects emits the
arrows in the fixed order X+, X-, Y+, Y-, Z+, Z-. -/
theorem c5_mousemove_hit_test (ctx : Ctx) (st : SessionState) (mx my : ℚ) :
    modalStep ctx st (.mouseMove false mx my) =
      (.runningModal, { st with hover := hitTest ctx mx my st.arrows }, {}) ∧
    (∀ i, hitTest ctx mx my st.arrows = some i ↔
        (∃ a, st.arrows.get? i = some a ∧ arrowHitAt ctx mx my a = true) ∧
        ∀ j b, j < i → st.arrows.get? j = some b →
          arrowHitAt ctx mx my b = false) ∧
    (hitTest ctx mx my st.arrows = none ↔
        ∀ a ∈ st.arrows, arrowHitAt ctx mx my a = false) ∧
    (∀ (a : Arrow) (t : Point2), ctx.loc3dTo2d a.tip = some t →
        (arrowHitAt ctx mx my a = true ↔
          (mx - t.1) ^ 2 + (my - t.2) ^ 2 ≤ (20 : ℚ) ^ 2)) ∧
    (∀ (o : Obj), (ctx.loc3dTo2d o.origin).isSome →
        (refreshForObj ctx o).map (fun a => (a.axis, a.sign)) =
          [(Axis.X, 1), (Axis.X, -1), (Axis.Y, 1), (Axis.Y, -1),
           (Axis.Z, 1), (Axis.Z, -1)]) := by
  refine ⟨rfl, fun i => hitTest_some_iff ctx mx my st.arrows i,
    hitTest_none_iff ctx mx my st.arrows, ?_, ?_⟩
  · intro a t ht
    simp [arrowHitAt, ht]
  · intro o hs
    obtain ⟨p, hp⟩ := Option.isSome_iff_exists.mp hs
    simp [refreshForObj, dirArrow, hp]

/-- Witness for C5: in the visible fixture every tip projects to pixel
(100, 100); the pointer at (120, 100) is exactly 20 px away and hovers the
first arrow (boundary inclusive), while the pointer at (121, 100) misses
every arrow and hover clears to none. -/
theorem c5_mousemove_hit_test_witness :
    modalStep ctxVisible stFresh (.mouseMove false 120 100) =
      (.runningModal,
        { stFresh with hover := hitTest ctxVisible 120 100 stFresh.arrows },
        {}) ∧
    hitTest ctxVisible 120 100 stFresh.arrows = some 0 ∧
    hitTest ctxVisible 121 100 stFresh.arrows = none := by
  have hc5 := c5_mousemove_hit_test ctxVisible stFresh 120 100
  have hc5m := c5_mousemove_hit_test ctxVisible stFresh 121 100
  have hlen : (refreshForObj ctxVisible objW).length = 6 := by
    simpa using refreshForObj_length ctxVisible objW
  have hne : refreshForObj ctxVisible objW ≠ [] := by
    intro h
    rw [h] at hlen
    simp at hlen
  obtain ⟨a, rest, hcons⟩ := List.exists_cons_of_ne_nil hne
  have harr : stFresh.arrows = refreshForObj ctxVisible objW := rfl
  refine ⟨hc5.1, ?_, ?_⟩
  · refine (hc5.2.1 0).mpr ⟨⟨a, ?_, ?_⟩, fun j b hj => absurd hj (Nat.not_lt_zero j)⟩
    · rw [harr, hcons]
      rfl
    · rw [arrowHitAt_ctxVisible]
      simp only [decide_eq_true_eq]
      norm_num
  · refine (hc5m.2.2.1).mpr ?_
    intro b _
    rw [arrowHitAt_ctxVisible]
    simp only [decide_eq_false_iff_not]
    norm_num

/-- Claim C6: with a hovered arrow present, a primary-click press invokes
the mirror primitive exactly once, with the direction token formed from the
hovered arrow's sign and axis and merge threshold 0.0001, and finishes the
session (COMMITTED); with no hovered arrow the press is a no-op and the
session keeps running; for signs +1 and -1 the token is one of the six
positive/negative axis tokens. -/
theorem c6_commit_mirror_once (ctx : Ctx) (st : SessionState)
    (hsym : ctx.symRaises = false) :
    (∀ i a, st.hover = some i → st.arrows.get? i = some a →
        (modalStep ctx st (.leftMouse "PRESS")).1 = .finished ∧
        (modalStep ctx st (.leftMouse "PRESS")).2.2.symCalls =
          [{ direction := directionToken a.sign a.axis, threshold := 0.0001 }]) ∧
    (st.hover = none →
        modalStep ctx st (.leftMouse "PRESS") = (.runningModal, st, {})) ∧
    (∀ (s : ℤ) (ax : Axis), s = 1 ∨ s = -1 →
        directionToken s ax ∈
          ["POSITIVE_X", "NEGATIVE_X", "POSITIVE_Y", "NEGATIVE_Y",
           "POSITIVE_Z", "NEGATIVE_Z"]) := by
  refine ⟨?_, ?_, ?_⟩
  · intro i a hh ha
    have ha' : st.arrows[i]? = some a := by
      rw [← List.get?_eq_getElem?]
      exact ha
    constructor
    · simp [modalStep, hh, ha', hsym]
    · simp [modalStep, hh, ha', hsym]
  · intro hh
    simp [modalStep, hh]
  · rintro s ax (rfl | rfl) <;> cases ax <;> decide

/-- Witness for C6: with the X+ arrow hovered, the press commits and calls
the primitive once with token POSITIVE_X and threshold 0.0001; with no
hover, the press leaves the session running unchanged. -/
theorem c6_commit_mirror_once_witness :
    (modalStep ctxVisible stHover (.leftMouse "PRESS")).1 = .finished ∧
    (modalStep ctxVisible stHover (.leftMouse "PRESS")).2.2.symCalls =
      [{ direction := "POSITIVE_X", threshold := 0.0001 }] ∧
    modalStep ctxVisible stNoHover (.leftMouse "PRESS") =
      (.runningModal, stNoHover, {}) := by
  have h0 := (c6_commit_mirror_once ctxVisible stHover rfl).1 0 arrowX rfl rfl
  refine ⟨h0.1, ?_, (c6_commit_mirror_once ctxVisible stNoHover rfl).2.1 rfl⟩
  rw [h0.2]
  rfl

/-- Claim C7 fails on the code at an exactly axis-aligned view: for the
view forward vector (0, 0, -1) and the axis direction (0, 0, 1) the
absolute dot product is 1 > 0.96, but the cross product of the view ray
with the direction is the zero vector, whose normalization is zero, so the
tilt vanishes: the adjusted direction equals the original direction and the
parallelism is not strictly reduced. -/
theorem c7_parallel_view_tilt_vanishes :
    (0.96 : ℝ) < |Vec3.dot (Vec3.mk 0 0 1).normalized (Vec3.mk 0 0 (-1))| ∧
    adjustDir (Vec3.mk 0 0 (-1)) (Vec3.mk 0 0 1) = Vec3.mk 0 0 1 ∧
    ¬ (|Vec3.dot (adjustDir (Vec3.mk 0 0 (-1)) (Vec3.mk 0 0 1)).normalized
          (Vec3.mk 0 0 (-1))| <
        |Vec3.dot (Vec3.mk 0 0 1).normalized (Vec3.mk 0 0 (-1))|) := by
  have hn : (Vec3.mk (0 : ℝ) 0 1).normalized = Vec3.mk 0 0 1 :=
    Vec3.normalized_of_sq_one _ (by norm_num)
  have habs : |Vec3.dot (Vec3.mk (0 : ℝ) 0 1) (Vec3.mk 0 0 (-1))| = 1 := by
    rw [Vec3.dot_mk]
    norm_num
  have hgt : (0.96 : ℝ) <
      |Vec3.dot (Vec3.mk (0 : ℝ) 0 1).normalized (Vec3.mk 0 0 (-1))| := by
    rw [hn, habs]
    norm_num
  have hcross : Vec3.cross (Vec3.mk (0 : ℝ) 0 (-1)) (Vec3.mk 0 0 1) =
      Vec3.mk 0 0 0 := by
    simp only [Vec3.cross_mk, Vec3.mk.injEq]
    norm_num
  have hadj : adjustDir (Vec3.mk 0 0 (-1)) (Vec3.mk 0 0 1) = Vec3.mk 0 0 1 := by
    simp only [adjustDir]
    rw [if_pos hgt, hcross, Vec3.normalized_zero]
    simp only [Vec3.smul_mk, Vec3.add_mk]
    rw [show Vec3.mk ((0 : ℝ) + 0.1 * 0) (0 + 0.1 * 0) (1 + 0.1 * 0) =
      Vec3.mk 0 0 1 by norm_num]
    exact hn
  exact ⟨hgt, hadj, by rw [hadj]; exact lt_irrefl _⟩

end BHSmartSym
